import Mathlib

/-!
Verification development for the instago-server enrichment and retrieval
pipelines.  The definitions below are a shallow embedding of the Python
source: dictionaries that flow between stages are modelled by the `PyVal`
type, fallible calls return `Except Unit`, and every external provider call
(Gemini, Tencent, OpenAI, Milvus) is a parameter describing that call's
outcome.  Machine floats of the source are modelled by `Rat`.
-/

namespace Instago

/-- A Python/JSON value as it flows between the pipeline stages. -/
inductive PyVal where
  | none
  | bool (b : Bool)
  | num (n : Int)
  | str (s : String)
  | list (xs : List PyVal)
  | dict (entries : List (String × PyVal))
deriving Repr

/-- Python truthiness (`if v:`). -/
def pyTruthy : PyVal → Bool
  | .none => false
  | .bool b => b
  | .num n => n != 0
  | .str s => s != ""
  | .list xs => !xs.isEmpty
  | .dict es => !es.isEmpty

/-- Lookup in a dict's entry list with a default (`dict.get(k, dflt)` once
the receiver is known to be a dict). -/
def pyLookup (es : List (String × PyVal)) (k : String) (dflt : PyVal) : PyVal :=
  match es.find? (fun kv => kv.1 == k) with
  | some kv => kv.2
  | Option.none => dflt

/-- `v.get(k, dflt)`: returns the value (or default) on a dict and raises
`AttributeError` on any other receiver. -/
def pyGet (v : PyVal) (k : String) (dflt : PyVal) : Except Unit PyVal :=
  match v with
  | .dict es => .ok (pyLookup es k dflt)
  | _ => .error ()

/-- `v[k]` on a dict: `KeyError` when absent, `TypeError` on non-dict
receivers other than lists. -/
def pyGetItem (v : PyVal) (k : String) : Except Unit PyVal :=
  match v with
  | .dict es =>
    match es.find? (fun kv => kv.1 == k) with
    | some kv => .ok kv.2
    | Option.none => .error ()
  | _ => .error ()

/-- `for x in v`: lists yield elements, strings yield characters, dicts
yield keys; other values raise `TypeError`. -/
def pyIter : PyVal → Except Unit (List PyVal)
  | .list xs => .ok xs
  | .str s => .ok (s.toList.map (fun c => .str (String.singleton c)))
  | .dict es => .ok (es.map (fun kv => .str kv.1))
  | _ => .error ()

/-- `v.lower()`: only strings have `lower`. -/
def pyLower : PyVal → Except Unit String
  | .str s => .ok s.toLower
  | _ => .error ()

/-- Substring test (`sub in s` for strings); assumes a non-empty needle,
which is how the source uses it. -/
def strContains (s sub : String) : Bool :=
  (s.splitOn sub).length != 1

/-- `" ".join(vs)`: every element must be a string, otherwise `TypeError`. -/
def pyJoinStrs (sep : String) : List PyVal → Except Unit String
  | [] => .ok ""
  | [.str s] => .ok s
  | .str s :: rest =>
    match pyJoinStrs sep rest with
    | .error e => .error e
    | .ok tail => .ok (s ++ sep ++ tail)
  | _ => .error ()

/-! ## Canonical Distiller — `app/llm_calls/structure_output_llm.py` -/

/-- The pydantic `QuickLink` model parsed from the provider's structured
output (`type` is `"direct"` or `"search_str"`). -/
structure QuickLinkModel where
  type : String
  content : String
deriving Repr, DecidableEq

/-- The pydantic `StructuredOutput` model. -/
structure StructuredOutputModel where
  title : String
  quick_link : QuickLinkModel
deriving Repr, DecidableEq

namespace StructureOutputLLM

/-- `StructureOutputLLM._error_response`. -/
def error_response : PyVal :=
  .dict [("title", .str "Processing Error"),
         ("quick_link", .dict [("type", .str "search_str"),
                               ("content", .str "screenshot content")])]

/-- `StructureOutputLLM.extract_structured_data`.  `initialized` is the
constructor's API-key check; `parsed` is the outcome of the provider call:
`.error ()` when the call raises, `.ok none` when it yields no parsed
message, `.ok (some r)` on a successful structured parse.  Every failure
branch returns `_error_response`; the function itself never raises. -/
def extract_structured_data (initialized : Bool)
    (parsed : Except Unit (Option StructuredOutputModel)) : PyVal :=
  if !initialized then error_response
  else
    match parsed with
    | .error _ => error_response
    | .ok Option.none => error_response
    | .ok (some r) =>
      .dict [("title", .str r.title),
             ("quick_link", .dict [("type", .str r.quick_link.type),
                                   ("content", .str r.quick_link.content)])]

end StructureOutputLLM

/-! ## Content Extractor — `app/llm_calls/gemini_ocr_llm.py` -/

namespace GeminiOCRLLM

/-- `GeminiOCRLLM._error_response`. -/
def error_response : PyVal :=
  .dict [("title", .str "Processing Error"),
         ("description", .str "Failed to analyze screenshot with Gemini"),
         ("tags", .list [.str "error"]),
         ("markdown", .str "# Error\nFailed to process this screenshot with Gemini.")]

/-- `GeminiOCRLLM.process_screenshot`.  `call` is the outcome of the
base64-decode plus `generate_content` call: `.error ()` when that chain
raises, `.ok Option.none` when the response has empty text (the raised
`ValueError` is caught by the surrounding generic handler), and
`.ok (some j)` when text is present, with `j` the outcome of `json.loads`
(`.error ()` = `JSONDecodeError`, `.ok v` = the parsed JSON value).
Every failure branch is caught and mapped to `_error_response`; the
function never raises. -/
def process_screenshot (initialized : Bool)
    (call : Except Unit (Option (Except Unit PyVal))) : PyVal :=
  if !initialized then error_response
  else
    match call with
    | .error _ => error_response
    | .ok Option.none => error_response
    | .ok (some (.error _)) => error_response
    | .ok (some (.ok v)) => v

end GeminiOCRLLM

/-! ## Embedding Provider — `app/services/embedding.py` -/

namespace EmbeddingService

/-- The guard `not text or not text.strip()`: true exactly when the text
is empty or consists only of whitespace characters. -/
def isBlank (text : String) : Bool :=
  text.data.all (fun c => c.isWhitespace)

/-- `EmbeddingService.generate_embedding`.  `dim` is
`settings.OPENAI_EMBEDDING_DIM`; `call` is the outcome of the OpenAI
embeddings request (`.error ()` when it raises).  Empty or
whitespace-only text, and any upstream failure, yield the zero vector. -/
def generate_embedding (dim : Nat) (text : String)
    (call : Except Unit (List Rat)) : List Rat :=
  if isBlank text then List.replicate dim 0
  else
    match call with
    | .error _ => List.replicate dim 0
    | .ok emb => emb

/-- Python `str(v)` as used in f-string interpolation.  `str()` never
raises; the exact rendering of nested containers (always a non-empty,
non-whitespace bracketed text in Python) is abstracted, since no pipeline
behaviour depends on it. -/
def pyStr : PyVal → String
  | .none => "None"
  | .bool b => if b then "True" else "False"
  | .num n => toString n
  | .str s => s
  | .list _ => "[...]"
  | .dict _ => "\x7b...\x7d"

/-- `EmbeddingService.generate_embedding_from_screenshot_data`: joins
title, description, tags and markdown into one blob and embeds it.
`' '.join(tags)` raises `TypeError` when a tag is not a string; that
exception propagates (this method has no handler of its own). -/
def generate_embedding_from_screenshot_data (dim : Nat)
    (title description : PyVal) (tags : List PyVal) (markdown : String)
    (call : Except Unit (List Rat)) : Except Unit (List Rat) :=
  match pyJoinStrs " " tags with
  | .error e => .error e
  | .ok joined =>
    .ok (generate_embedding dim
      (pyStr title ++ "\n\n" ++ pyStr description ++ "\n\n" ++ joined ++ "\n\n" ++ markdown)
      call)

end EmbeddingService

/-! ## Vector Index — `app/services/vector_store.py` -/

/-- One row of the Milvus collection (`id`, `entity_id`, `entity_type`,
`user_id`, `embedding`). -/
structure VectorEntry where
  vector_id : String
  entity_id : String
  entity_type : String
  user_id : String
  embedding : List Rat
deriving Repr, DecidableEq

/-- The `VectorService` component state: the connection flag set by the
constructor and the rows of the backing collection. -/
structure VectorState where
  connected : Bool
  entries : List VectorEntry
deriving Repr, DecidableEq

/-- A search hit as returned by `VectorService.search_screenshots`. -/
structure SearchHit where
  screenshot_id : String
  user_id : String
  score : Rat
deriving Repr, DecidableEq

/-- Inner-product similarity (the collection's `metric_type = "IP"`). -/
def innerProduct (a b : List Rat) : Rat :=
  (List.zipWith (· * ·) a b).sum

/-- Stable insertion of `x` into a list sorted descending by `key`: `x`
lands after every element whose key is at least its own. -/
def insertByKeyDesc (key : α → Rat) (x : α) : List α → List α
  | [] => [x]
  | y :: ys => if key x ≤ key y then y :: insertByKeyDesc key x ys else x :: y :: ys

/-- Stable descending sort by a rational key: models both the
score-ranked result of the index backend and Python's stable
`sort(key=…, reverse=True)`. -/
def sortByKeyDesc (key : α → Rat) (xs : List α) : List α :=
  xs.foldl (fun acc x => insertByKeyDesc key x acc) []

namespace VectorService

/-- `VectorService.add_entity`.  Disconnected state returns the
`"not-stored"` sentinel without touching the collection.  When connected,
`newId` stands for the generated UUID and `insertOk` for the outcome of
the Milvus insert/flush; on insert failure the exception is re-raised
(`raise` in the handler). -/
def add_entity (st : VectorState) (entity_id entity_type : String)
    (embedding : List Rat) (user_id : Option String)
    (newId : String) (insertOk : Bool) : Except Unit (String × VectorState) :=
  if !st.connected then .ok ("not-stored", st)
  else if insertOk then
    .ok (newId,
      { st with entries := st.entries ++
          [{ vector_id := newId, entity_id := entity_id,
             entity_type := entity_type, user_id := user_id.getD "",
             embedding := embedding }] })
  else .error ()

/-- `VectorService.add_screenshot`. -/
def add_screenshot (st : VectorState) (screenshot_id : String)
    (embedding : List Rat) (user_id : Option String)
    (newId : String) (insertOk : Bool) : Except Unit (String × VectorState) :=
  add_entity st screenshot_id "screenshot" embedding user_id newId insertOk

/-- `VectorService.search_screenshots`.  Disconnected state returns `[]`.
The filter expression restricts hits to `entity_type == "screenshot"` and
`user_id ∈ user_ids`; with an empty `user_ids` the source raises
`IndexError` while building the expression, which its handler turns into
`[]`.  Milvus ranks the filtered rows by inner product (descending) and
returns at most `limit` of them. -/
def search_screenshots (st : VectorState) (query_embedding : List Rat)
    (user_ids : List String) (limit : Nat) : List SearchHit :=
  if !st.connected then []
  else if user_ids.isEmpty then []
  else
    let matching := st.entries.filter
      (fun e => user_ids.contains e.user_id && e.entity_type == "screenshot")
    let scored := matching.map (fun e =>
      ({ screenshot_id := e.entity_id, user_id := e.user_id,
         score := innerProduct query_embedding e.embedding } : SearchHit))
    let ranked := sortByKeyDesc (fun hit => hit.score) scored
    ranked.take limit

/-- `VectorService.delete_screenshot`: a no-op when disconnected (and on
backend errors, which are swallowed); otherwise deletes by `vector_id`. -/
def delete_screenshot (st : VectorState) (vector_id : String) : VectorState :=
  if !st.connected then st
  else { st with entries := st.entries.filter (fun e => e.vector_id != vector_id) }

end VectorService

/-! ## Relevance Reranker — `app/services/reranking.py` -/

/-- Python list indexing `xs[i]` with negative-index wraparound;
out-of-range indices raise `IndexError`. -/
def pyListGet (xs : List α) (i : Int) : Except Unit α :=
  let j : Int := if i < 0 then i + xs.length else i
  if h : 0 ≤ j ∧ j.toNat < xs.length then .ok (xs.get ⟨j.toNat, h.2⟩)
  else .error ()

namespace RerankingService

/-- `RerankingService._parse_rankings`.  The response text is modelled
line by line: a line is `some (idx, score)` when it contains a colon and
its two halves lex as `int` and `float`, `none` otherwise (such lines are
skipped).  The parsed pairs are then sorted by score, descending
(Python's stable `sort` with `reverse=True`). -/
def parse_rankings (lines : List (Option (Int × Rat))) : List (Int × Rat) :=
  let rankings := lines.filterMap id
  sortByKeyDesc (fun p => p.2) rankings

/-- The first loop of `rerank_screenshots`: walk `rankings[:top_k]` and
collect `(screenshots[idx], score)` for entries whose `idx` is below the
list length.  A negative `idx` passes that guard and indexes from the
end; one below `-len(screenshots)` raises `IndexError`, which the
enclosing `try` converts into the fallback result. -/
def buildReranked (ss : List α) : List (Int × Rat) → Except Unit (List (α × Rat))
  | [] => .ok []
  | p :: rest =>
    if p.1 < (ss.length : Int) then
      match pyListGet ss p.1 with
      | .error e => .error e
      | .ok x =>
        match buildReranked ss rest with
        | .error e => .error e
        | .ok res => .ok ((x, p.2) :: res)
    else buildReranked ss rest

/-- The second loop of `rerank_screenshots`: append, in original order
and at score `0.5`, every screenshot whose index was not mentioned in
`rankings[:top_k]`, while the accumulated list is shorter than `top_k`. -/
def backfillAux (included : List Int) (top_k : Nat) :
    List α → Nat → List (α × Rat) → List (α × Rat)
  | [], _, acc => acc
  | s :: rest, i, acc =>
    let acc' :=
      if !included.contains (i : Int) && acc.length < top_k
      then acc ++ [(s, (1 : Rat) / 2)] else acc
    backfillAux included top_k rest (i + 1) acc'

/-- `RerankingService.rerank_screenshots`.  `initialized` is the
constructor's API-key check; `call` is the outcome of the chat-completions
request: `.error ()` when it raises, `.ok none` when the message content
is falsy, `.ok (some lines)` otherwise.  Every failure path falls back to
the first `top_k` screenshots in their original order at score `1.0`. -/
def rerank_screenshots (initialized : Bool) (screenshots : List α)
    (top_k : Nat) (call : Except Unit (Option (List (Option (Int × Rat))))) :
    List (α × Rat) :=
  if !initialized then (screenshots.take top_k).map (fun s => (s, (1 : Rat)))
  else
    match call with
    | .error _ => (screenshots.take top_k).map (fun s => (s, (1 : Rat)))
    | .ok Option.none => (screenshots.take top_k).map (fun s => (s, (1 : Rat)))
    | .ok (some lines) =>
      let rankings := parse_rankings lines
      let tops := rankings.take top_k
      match buildReranked screenshots tops with
      | .error _ => (screenshots.take top_k).map (fun s => (s, (1 : Rat)))
      | .ok reranked =>
        let included := tops.map (fun p => p.1)
        (backfillAux included top_k screenshots 0 reranked).take top_k

end RerankingService

/-! ## Screenshot Record — `app/models/screenshot.py`

Only the identity, ownership, status and the AI-derived columns are
modelled; the storage columns (`image_url`, `thumbnail_url`, dimensions,
timestamps, `user_note`) belong to the out-of-scope object-storage
collaborator and play no role in any claim.  `ai_tags` is stored as
`json.dumps` of the tag list in the source; it is modelled by the list
itself (the encoding is irrelevant to the claims). -/

structure Screenshot where
  id : String
  user_id : String
  process_status : String
  ai_title : Option PyVal := Option.none
  ai_description : Option PyVal := Option.none
  ai_tags : Option (List PyVal) := Option.none
  markdown_content : Option String := Option.none
  vector_id : Option String := Option.none
  quick_link : Option PyVal := Option.none
deriving Repr

/-- Assignment of a Python value to a nullable database column: assigning
`None` stores SQL `NULL`; any other value is stored as-is.  (Previously
every assigned value was wrapped in `some`, which hid an assigned `None`
behind a non-null column.) -/
def pyColumn (v : PyVal) : Option PyVal :=
  match v with
  | .none => Option.none
  | v => some v

/-- The dictionary returned by
`ScreenshotProcessingService._prepare_metadata`. -/
structure Metadata where
  title : PyVal
  description : PyVal
  tags : List PyVal
  has_error : PyVal
deriving Repr

namespace ScreenshotProcessingService

/-- `ScreenshotProcessingService._mark_screenshot_error`: sets
`process_status = "error"` and commits; no derived field is touched. -/
def mark_screenshot_error (s : Screenshot) : Screenshot :=
  { s with process_status := "error" }

/-- `ScreenshotProcessingService._create_screenshot_record`: the record is
born with `process_status = "pending"` and every AI-derived column null. -/
def create_screenshot_record (id user_id : String) : Screenshot :=
  { id := id, user_id := user_id, process_status := "pending" }

/-- The inner `contents` loop of `_prepare_metadata`: for each content
whose lowercased `key` mentions `tag`, `category` or `type`, append its
`value`. -/
def collectContentTags (acc : List PyVal) : List PyVal → Except Unit (List PyVal)
  | [] => .ok acc
  | content :: rest =>
    match pyGet content "key" (.str "") with
    | .error e => .error e
    | .ok keyV =>
      match pyLower keyV with
      | .error e => .error e
      | .ok key =>
        if strContains key "tag" || strContains key "category" || strContains key "type" then
          match pyGet content "value" (.str "") with
          | .error e => .error e
          | .ok v => collectContentTags (acc ++ [v]) rest
        else collectContentTags acc rest

/-- The outer `parts` loop of `_prepare_metadata`. -/
def collectPartTags (acc : List PyVal) : List PyVal → Except Unit (List PyVal)
  | [] => .ok acc
  | part :: rest =>
    match pyGet part "contents" (.list []) with
    | .error e => .error e
    | .ok contentsVal =>
      match pyIter contentsVal with
      | .error e => .error e
      | .ok contents =>
        match collectContentTags acc contents with
        | .error e => .error e
        | .ok acc2 => collectPartTags acc2 rest

/-- `ScreenshotProcessingService._prepare_metadata`.  Faithful to the
Python evaluation order: the default `ocr_result.get('application', …)`
is evaluated before `structured_data.get('title', …)`; iterating a
non-iterable `parts` value or lowercasing a non-string key raises, and any
such exception propagates to the pipeline's outer handler (this method
itself has no `try`). -/
def prepare_metadata (ocr_result structured_data : PyVal) :
    Except Unit Metadata :=
  match pyGet ocr_result "application" (.str "Screenshot") with
  | .error e => .error e
  | .ok appDefault =>
  match pyGet structured_data "title" appDefault with
  | .error e => .error e
  | .ok title =>
  match pyGet ocr_result "general_description" (.str "") with
  | .error e => .error e
  | .ok description =>
  match pyGet ocr_result "parts" (.list []) with
  | .error e => .error e
  | .ok partsVal =>
  match pyIter partsVal with
  | .error e => .error e
  | .ok parts =>
  match collectPartTags [] parts with
  | .error e => .error e
  | .ok tags0 =>
  match pyGet ocr_result "application" .none with
  | .error e => .error e
  | .ok app =>
  let tagsE : Except Unit (List PyVal) :=
    if tags0.isEmpty && pyTruthy app then
      match pyGetItem ocr_result "application" with
      | .error e => .error e
      | .ok a => .ok [a]
    else .ok tags0
  match tagsE with
  | .error e => .error e
  | .ok tags =>
  match pyGet structured_data "error" (.bool false) with
  | .error e => .error e
  | .ok has_error =>
  .ok { title := title, description := description, tags := tags,
        has_error := has_error }

/-- `ScreenshotProcessingService._update_screenshot_record` (the terminal
write): fills every derived column, then sets `process_status` to
`"error"` when `metadata['has_error']` is truthy and to `"processed"`
otherwise, and commits once. -/
def update_screenshot_record (s : Screenshot) (metadata : Metadata)
    (markdown_output : String) (vector_id : String)
    (structured_data : PyVal) : Except Unit Screenshot :=
  match pyGet structured_data "quick_link" (.dict []) with
  | .error e => .error e
  | .ok ql =>
  .ok { s with
        ai_title := pyColumn metadata.title,
        ai_description := pyColumn metadata.description,
        ai_tags := some metadata.tags,
        markdown_content := some markdown_output,
        vector_id := some vector_id,
        quick_link := pyColumn ql,
        process_status := if pyTruthy metadata.has_error then "error" else "processed" }

/-- `ScreenshotProcessingService._find_sources_with_tencent`.  `chain` is
the outcome of `process_query` → `json.loads` → `[0]` → `json.dumps`
(every failure in that chain lands in the same handler).  The handler
builds the fallback markdown from the OCR dict; `ocr_result.get` raising
there (non-dict OCR value) propagates out of the method. -/
def find_sources_with_tencent (ocr_result : PyVal)
    (chain : Except Unit String) : Except Unit String :=
  match chain with
  | .ok md => .ok md
  | .error _ =>
    match pyGet ocr_result "application" (.str "Screenshot") with
    | .error e => .error e
    | .ok app =>
      match pyGet ocr_result "text_content" (.str "") with
      | .error e => .error e
      | .ok txt =>
        .ok ("# " ++ EmbeddingService.pyStr app ++ "\n\n" ++ EmbeddingService.pyStr txt)

end ScreenshotProcessingService

/-! ## Enrichment Pipeline — `ScreenshotProcessingService.process_screenshot_async` -/

/-- Everything that can vary between two runs of the enrichment pipeline:
the record identity and every external-provider outcome.  A run is then a
pure function of these inputs and the vector-index state. -/
structure PipelineInputs where
  screenshotId : String
  userId : String
  ocrInit : Bool
  ocrCall : Except Unit (Option (Except Unit PyVal))
  tencentChain : Except Unit String
  structInit : Bool
  structParsed : Except Unit (Option StructuredOutputModel)
  embedDim : Nat
  embedCall : Except Unit (List Rat)
  newVectorId : String
  insertOk : Bool

namespace ScreenshotProcessingService

/-- `ScreenshotProcessingService.process_screenshot_async`, from record
creation onward.  Steps 3 and 5 sit inside their own `try`/`except`
blocks in the source, but the called stage functions catch all their own
exceptions (they are total here), so those handlers have no failing
branch; step 4's handler fires when the fallback formatting in
`_find_sources_with_tencent` itself raises.  Steps 6 and 7 and the
terminal write are unguarded, so their exceptions reach the outer
handler, which sets `process_status = "error"` (the terminal-write
failure branch is unreachable for the dictionaries the distiller actually
produces, proved below). -/
def process_screenshot_async (inp : PipelineInputs) (vst : VectorState) :
    Screenshot × VectorState :=
  let screenshot := create_screenshot_record inp.screenshotId inp.userId
  let ocr_result := GeminiOCRLLM.process_screenshot inp.ocrInit inp.ocrCall
  match find_sources_with_tencent ocr_result inp.tencentChain with
  | .error _ => (mark_screenshot_error screenshot, vst)
  | .ok markdown_output =>
    let structured_data :=
      StructureOutputLLM.extract_structured_data inp.structInit inp.structParsed
    match prepare_metadata ocr_result structured_data with
    | .error _ => ({ screenshot with process_status := "error" }, vst)
    | .ok metadata =>
      match EmbeddingService.generate_embedding_from_screenshot_data
          inp.embedDim metadata.title metadata.description metadata.tags
          markdown_output inp.embedCall with
      | .error _ => ({ screenshot with process_status := "error" }, vst)
      | .ok embedding =>
        match VectorService.add_screenshot vst inp.screenshotId embedding
            (some inp.userId) inp.newVectorId inp.insertOk with
        | .error _ => ({ screenshot with process_status := "error" }, vst)
        | .ok (vector_id, vst2) =>
          match update_screenshot_record screenshot metadata markdown_output
              vector_id structured_data with
          | .error _ => ({ screenshot with process_status := "error" }, vst2)
          | .ok s2 => (s2, vst2)

end ScreenshotProcessingService

/-! ## Retrieval Pipeline — `app/api/search.py` `search_screenshots` -/

/-- `app/models/query.py` `Query`: one row of query history. -/
structure QueryRecord where
  user_id : String
  query_text : String
  results_count : Nat
  include_friends : Nat
deriving Repr, DecidableEq

/-- `app/models/schemas.py` `ScreenshotDTO` as built by the endpoint. -/
structure ScreenshotDTO where
  id : String
  user_id : String
  ai_title : String
  ai_description : String
  markdown_content : String
  ai_tags : List PyVal
  vector_score : Rat
deriving Repr

/-- `x or ""` on an optional column read back from the database. -/
def orEmptyStr (v : Option PyVal) : String :=
  match v with
  | some w => if pyTruthy w then EmbeddingService.pyStr w else ""
  | Option.none => ""

/-- Step 6 of the endpoint: the DTO for one screenshot row, carrying the
vector-search score.  `ai_tags` is the JSON-decoded tag list, `[]` when
the column is null (or fails to decode). -/
def mkScreenshotDTO (s : Screenshot) (score : Rat) : ScreenshotDTO :=
  { id := s.id, user_id := s.user_id,
    ai_title := orEmptyStr s.ai_title,
    ai_description := orEmptyStr s.ai_description,
    markdown_content := s.markdown_content.getD "",
    ai_tags := s.ai_tags.getD [],
    vector_score := score }

/-- An observation of one run of the `/query` endpoint: the limit handed
to the vector search, the raw vector hits, the query-history row created
(if any), whether the reranker was invoked, and the final response. -/
structure SearchRun where
  vectorLimit : Nat
  searchResults : List SearchHit
  queryRecord : Option QueryRecord
  rerankerInvoked : Bool
  results : List (Screenshot × Rat)

/-- `search_screenshots` in `app/api/search.py` (the `/query` endpoint).
`db` is the screenshots table, `vst` the vector-index state; `embedCall`
and (`rerankInit`, `rerankCall`) are the provider outcomes of steps 2
and 7.  Faithful structure: owner set `[uid]`; vector search with
`limit * 2`; empty hits return `[]` before the query row is inserted;
otherwise one `Query` row is committed, full rows are fetched and turned
into DTOs, the reranker runs with `top_k = limit`, and the response is
assembled from the map of fetched rows. -/
def api_search_screenshots (queryText : String) (limit : Nat) (uid : String)
    (db : List Screenshot) (vst : VectorState)
    (embedDim : Nat) (embedCall : Except Unit (List Rat))
    (rerankInit : Bool)
    (rerankCall : Except Unit (Option (List (Option (Int × Rat))))) : SearchRun :=
  let user_ids := [uid]
  let query_embedding := EmbeddingService.generate_embedding embedDim queryText embedCall
  let search_results :=
    VectorService.search_screenshots vst query_embedding user_ids (limit * 2)
  if search_results.isEmpty then
    { vectorLimit := limit * 2, searchResults := search_results,
      queryRecord := Option.none, rerankerInvoked := false, results := [] }
  else
    let query_record : QueryRecord :=
      { user_id := uid, query_text := queryText,
        results_count := search_results.length, include_friends := 0 }
    let screenshot_data_list := search_results.filterMap (fun r =>
      (db.find? (fun s => s.id == r.screenshot_id)).map
        (fun s => mkScreenshotDTO s r.score))
    if screenshot_data_list.isEmpty then
      { vectorLimit := limit * 2, searchResults := search_results,
        queryRecord := some query_record, rerankerInvoked := false, results := [] }
    else
      let reranked := RerankingService.rerank_screenshots rerankInit
        screenshot_data_list limit rerankCall
      let results := reranked.filterMap (fun p =>
        (db.find? (fun s => s.id == p.1.id)).map (fun s => (s, p.2)))
      { vectorLimit := limit * 2, searchResults := search_results,
        queryRecord := some query_record, rerankerInvoked := true,
        results := results }

/-! ## Helper lemmas -/

/-- Every value `extract_structured_data` can return is a dictionary with
exactly the keys `title` and `quick_link`, in that order. -/
theorem extract_structured_data_shape (i : Bool)
    (p : Except Unit (Option StructuredOutputModel)) :
    ∃ t ql, StructureOutputLLM.extract_structured_data i p =
      PyVal.dict [("title", t), ("quick_link", ql)] := by
  cases i with
  | false => exact ⟨_, _, rfl⟩
  | true =>
    rcases p with e | o
    · exact ⟨_, _, rfl⟩
    · rcases o with _ | r
      · exact ⟨_, _, rfl⟩
      · exact ⟨_, _, rfl⟩

/-- Sharper shape: the distiller's `title` is always a string and its
`quick_link` always a `{type, content}` dictionary of strings — in both
the success and the fallback branch. -/
theorem extract_structured_data_shape_str (i : Bool)
    (p : Except Unit (Option StructuredOutputModel)) :
    ∃ ts qt qc, StructureOutputLLM.extract_structured_data i p =
      PyVal.dict [("title", PyVal.str ts),
        ("quick_link", PyVal.dict [("type", PyVal.str qt),
                                   ("content", PyVal.str qc)])] := by
  cases i with
  | false => exact ⟨_, _, _, rfl⟩
  | true =>
    rcases p with e | o
    · exact ⟨_, _, _, rfl⟩
    · rcases o with _ | r
      · exact ⟨_, _, _, rfl⟩
      · exact ⟨_, _, _, rfl⟩

/-- Looking up `error` in a `{title, quick_link}` dictionary yields the
default. -/
theorem pyGet_titled_dict_error (t ql d : PyVal) :
    pyGet (PyVal.dict [("title", t), ("quick_link", ql)]) "error" d = .ok d := rfl

/-- Looking up `title` in a `{title, quick_link}` dictionary. -/
theorem pyGet_titled_dict_title (t ql d : PyVal) :
    pyGet (PyVal.dict [("title", t), ("quick_link", ql)]) "title" d = .ok t := rfl

/-- Looking up `quick_link` in a `{title, quick_link}` dictionary. -/
theorem pyGet_titled_dict_quick_link (t ql d : PyVal) :
    pyGet (PyVal.dict [("title", t), ("quick_link", ql)]) "quick_link" d = .ok ql := rfl

/-- Whenever `_prepare_metadata` succeeds, its `has_error` entry is
exactly what `structured_data.get('error', False)` returns. -/
theorem prepare_metadata_ok_has_error (ocr sd : PyVal) (m : Metadata)
    (h : ScreenshotProcessingService.prepare_metadata ocr sd = .ok m) :
    pyGet sd "error" (.bool false) = .ok m.has_error := by
  unfold ScreenshotProcessingService.prepare_metadata at h
  repeat' split at h
  all_goals (try simp_all)
  all_goals exact congrArg Metadata.has_error h

/-- On the dictionaries the distiller produces, a successful
`_prepare_metadata` always reports `has_error = False`. -/
theorem prepare_metadata_extract_has_error (ocr : PyVal) (i : Bool)
    (p : Except Unit (Option StructuredOutputModel)) (m : Metadata)
    (h : ScreenshotProcessingService.prepare_metadata ocr
      (StructureOutputLLM.extract_structured_data i p) = .ok m) :
    m.has_error = PyVal.bool false := by
  obtain ⟨t, ql, hs⟩ := extract_structured_data_shape i p
  rw [hs] at h
  have := prepare_metadata_ok_has_error _ _ _ h
  rw [pyGet_titled_dict_error] at this
  exact (Except.ok.injEq _ _).mp this.symm

/-- The terminal write on a `{title, quick_link}` dictionary always
succeeds, filling every derived column and choosing the status from
`has_error`. -/
theorem update_screenshot_record_titled (s : Screenshot) (m : Metadata)
    (md vid : String) (t ql : PyVal) :
    ScreenshotProcessingService.update_screenshot_record s m md vid
      (PyVal.dict [("title", t), ("quick_link", ql)]) =
      .ok { s with
            ai_title := pyColumn m.title,
            ai_description := pyColumn m.description,
            ai_tags := some m.tags,
            markdown_content := some md,
            vector_id := some vid,
            quick_link := pyColumn ql,
            process_status := if pyTruthy m.has_error then "error" else "processed" } := rfl

/-- On a `{title, quick_link}` dictionary, a successful
`_prepare_metadata` carries that dictionary's `title` value (the default
drawn from the OCR dict is not used, since the key is present). -/
theorem prepare_metadata_titled_title (ocr t ql : PyVal) (m : Metadata)
    (h : ScreenshotProcessingService.prepare_metadata ocr
      (PyVal.dict [("title", t), ("quick_link", ql)]) = .ok m) :
    m.title = t := by
  unfold ScreenshotProcessingService.prepare_metadata at h
  repeat' split at h
  all_goals (try simp_all [pyGet_titled_dict_title])
  all_goals exact (congrArg Metadata.title h).symm

/-- On the dictionaries the distiller produces (key shape
`{title, quick_link}`), a successful `_prepare_metadata` reports
`has_error = False`. -/
theorem prepare_metadata_titled_has_error (ocr t ql : PyVal) (m : Metadata)
    (h : ScreenshotProcessingService.prepare_metadata ocr
      (PyVal.dict [("title", t), ("quick_link", ql)]) = .ok m) :
    m.has_error = PyVal.bool false := by
  have h2 := prepare_metadata_ok_has_error _ _ _ h
  rw [pyGet_titled_dict_error] at h2
  exact (Except.ok.injEq _ _).mp h2.symm

/-- `_prepare_metadata` on the Gemini error-response dictionary and a
distiller-shaped dictionary: succeeds with empty description and tags and
`has_error = False`. -/
theorem prepare_metadata_gemini_error_titled (t ql : PyVal) :
    ScreenshotProcessingService.prepare_metadata GeminiOCRLLM.error_response
      (PyVal.dict [("title", t), ("quick_link", ql)]) =
      .ok { title := t, description := .str "", tags := [],
            has_error := .bool false } := rfl

/-- The extraction stage maps a `JSONDecodeError` outcome to its default
error-response dictionary whatever the `initialized` flag is. -/
theorem gemini_malformed_gives_error_response (i : Bool) :
    GeminiOCRLLM.process_screenshot i (.ok (some (.error ()))) =
      GeminiOCRLLM.error_response := by
  cases i <;> rfl

/-- Membership through stable insertion. -/
theorem mem_insertByKeyDesc {key : α → Rat} {x a : α} {l : List α} :
    a ∈ insertByKeyDesc key x l ↔ a = x ∨ a ∈ l := by
  induction l with
  | nil => simp [insertByKeyDesc]
  | cons y ys ih =>
    unfold insertByKeyDesc
    split
    all_goals simp only [List.mem_cons, ih]
    all_goals tauto

/-- Membership through the stable descending sort. -/
theorem mem_sortByKeyDesc {key : α → Rat} {a : α} {xs : List α} :
    a ∈ sortByKeyDesc key xs ↔ a ∈ xs := by
  have general : ∀ (ys : List α) (acc : List α),
      a ∈ ys.foldl (fun acc x => insertByKeyDesc key x acc) acc ↔ a ∈ acc ∨ a ∈ ys := by
    intro ys
    induction ys with
    | nil => simp
    | cons x xs ih =>
      intro acc
      rw [List.foldl_cons, ih, mem_insertByKeyDesc]
      simp only [List.mem_cons]
      tauto
  rw [sortByKeyDesc, general]
  simp

/-- The reranker never returns more than `top_k` pairs. -/
theorem rerank_screenshots_length_le (init : Bool) (ss : List α) (k : Nat)
    (call : Except Unit (Option (List (Option (Int × Rat))))) :
    (RerankingService.rerank_screenshots init ss k call).length ≤ k := by
  simp only [RerankingService.rerank_screenshots]
  repeat' split
  all_goals simp [List.length_take, List.length_map]

/-- The backfill loop never shrinks the accumulated list. -/
theorem backfillAux_length_mono (inc : List Int) (k : Nat) :
    ∀ (ss : List α) (i : Nat) (acc : List (α × Rat)),
      acc.length ≤ (RerankingService.backfillAux inc k ss i acc).length := by
  intro ss
  induction ss with
  | nil => intro i acc; simp [RerankingService.backfillAux]
  | cons s rest ih =>
    intro i acc
    simp only [RerankingService.backfillAux]
    split
    · exact le_trans (by simp) (ih (i + 1) _)
    · exact ih (i + 1) acc

/-- Lower bound for the backfill loop: it reaches `top_k` as long as
enough not-yet-included indices remain. -/
theorem backfillAux_length_lower (inc : List Int) (k : Nat) :
    ∀ (ss : List α) (i : Nat) (acc : List (α × Rat)),
      min k (acc.length + ((List.range' i ss.length).filter
        (fun (j : Nat) => !inc.contains (j : Int))).length) ≤
      (RerankingService.backfillAux inc k ss i acc).length := by
  intro ss
  induction ss with
  | nil =>
    intro i acc
    simp [RerankingService.backfillAux]
  | cons s rest ih =>
    intro i acc
    simp only [RerankingService.backfillAux, List.length_cons, List.range'_succ]
    by_cases hc : inc.contains (i : Int)
    · rw [List.filter_cons_of_neg (by simpa using hc)]
      have hcond : (!inc.contains (i : Int) && decide (acc.length < k)) = false := by
        simp only [hc, Bool.not_true, Bool.false_and]
      rw [if_neg (by simp only [hcond]; simp)]
      exact ih (i + 1) acc
    · rw [List.filter_cons_of_pos (by simpa using hc)]
      by_cases hlen : acc.length < k
      · have hcf : inc.contains (i : Int) = false := by simpa using hc
        have hcond : (!inc.contains (i : Int) && decide (acc.length < k)) = true := by
          rw [hcf, decide_eq_true hlen]
          rfl
        rw [if_pos hcond]
        have h2 := ih (i + 1) (acc ++ [(s, (1 : Rat) / 2)])
        simp only [List.length_append, List.length_singleton, List.length_cons] at h2 ⊢
        omega
      · have hcond : (!inc.contains (i : Int) && decide (acc.length < k)) = false := by
          simp only [decide_eq_false hlen, Bool.and_false]
        rw [if_neg (by simp only [hcond]; simp)]
        have hm := backfillAux_length_mono inc k rest (i + 1) acc
        simp only [List.length_cons]
        omega

/-- A successful first loop collects exactly the ranked entries whose
index is below the candidate count. -/
theorem buildReranked_ok_length (ss : List α) :
    ∀ (tops : List (Int × Rat)) (res : List (α × Rat)),
      RerankingService.buildReranked ss tops = .ok res →
      res.length = (tops.filter (fun p => decide (p.1 < (ss.length : Int)))).length := by
  intro tops
  induction tops with
  | nil =>
    intro res h
    simp only [RerankingService.buildReranked] at h
    cases h
    simp
  | cons p rest ih =>
    intro res h
    simp only [RerankingService.buildReranked] at h
    by_cases hp : p.1 < (ss.length : Int)
    · rw [if_pos hp] at h
      rw [List.filter_cons_of_pos (by simpa using hp)]
      rcases hga : pyListGet ss p.1 with e | x
      · rw [hga] at h; cases h
      · rw [hga] at h
        rcases hbr : RerankingService.buildReranked ss rest with e | res2
        · rw [hbr] at h; cases h
        · rw [hbr] at h
          cases h
          simp [ih res2 hbr]
    · rw [if_neg hp] at h
      rw [List.filter_cons_of_neg (by simpa using hp)]
      exact ih res h

/-- Distinct indices drawn from `inc` and below `n` are at most as many
as the entries of `inc` below `n`. -/
theorem length_range_filter_contains_le (inc : List Int) (n : Nat) :
    ((List.range n).filter (fun (j : Nat) => inc.contains (j : Int))).length ≤
      (inc.filter (fun x => decide (x < (n : Int)))).length := by
  have hnodup : (((List.range n).filter (fun (j : Nat) => inc.contains (j : Int))).map
      (fun (j : Nat) => (j : Int))).Nodup :=
    ((List.nodup_range n).filter _).map (fun a b hab => by exact_mod_cast hab)
  have hsub : ((List.range n).filter (fun (j : Nat) => inc.contains (j : Int))).map
      (fun (j : Nat) => (j : Int)) ⊆ inc.filter (fun x => decide (x < (n : Int))) := by
    intro x hx
    obtain ⟨j, hj, rfl⟩ := List.mem_map.mp hx
    obtain ⟨hjr, hjc⟩ := List.mem_filter.mp hj
    refine List.mem_filter.mpr ⟨by simpa using hjc, ?_⟩
    have := List.mem_range.mp hjr
    simpa using this
  have := (hnodup.subperm hsub).length_le
  simpa using this

/-- Splitting a list by a Boolean predicate preserves its length. -/
theorem length_filter_not_add_length_filter (l : List Nat) (f : Nat → Bool) :
    (l.filter (fun x => !f x)).length + (l.filter f).length = l.length := by
  induction l with
  | nil => rfl
  | cons x xs ih =>
    by_cases hf : f x <;> simp [List.filter_cons, hf] <;> omega

/-! ## Claim theorems -/

/-- C9: for every input narrative, the Canonical Distiller
(`StructureOutputLLM.extract_structured_data`) either returns the
`{title, quick_link}` parsed from the provider's structured output, or —
on an uninitialized provider, a provider exception, or an unparseable
response — the deterministic fallback whose title is `"Processing Error"`
and whose quick link is of the search-string kind; being a total
function, it never raises past its boundary. -/
theorem distiller_returns_extraction_or_deterministic_fallback
    (i : Bool) (p : Except Unit (Option StructuredOutputModel)) :
    ((∃ r, p = Except.ok (some r) ∧ i = true ∧
        StructureOutputLLM.extract_structured_data i p =
          PyVal.dict [("title", PyVal.str r.title),
                      ("quick_link", PyVal.dict
                        [("type", PyVal.str r.quick_link.type),
                         ("content", PyVal.str r.quick_link.content)])]) ∨
      StructureOutputLLM.extract_structured_data i p =
        StructureOutputLLM.error_response) ∧
    pyGet StructureOutputLLM.error_response "title" PyVal.none =
      .ok (.str "Processing Error") ∧
    pyGet StructureOutputLLM.error_response "quick_link" PyVal.none =
      .ok (.dict [("type", .str "search_str"), ("content", .str "screenshot content")]) := by
  refine ⟨?_, rfl, rfl⟩
  cases i with
  | false => exact Or.inr rfl
  | true =>
    rcases p with e | o
    · exact Or.inr rfl
    · rcases o with _ | r
      · exact Or.inr rfl
      · exact Or.inl ⟨r, rfl, rfl, rfl⟩

/-- C10: the distiller only ever returns dictionaries with exactly the
keys `title` and `quick_link` (never an `error` key), so
`_prepare_metadata` always computes `has_error = False`, and every
pipeline run that reaches the terminal write sets
`process_status = "processed"` — the `error` branch of
`_update_screenshot_record` is unreachable. -/
theorem terminal_write_error_branch_unreachable
    (i : Bool) (p : Except Unit (Option StructuredOutputModel))
    (ocr : PyVal) (m : Metadata) (s : Screenshot) (md vid : String) :
    (∃ t ql, StructureOutputLLM.extract_structured_data i p =
      PyVal.dict [("title", t), ("quick_link", ql)]) ∧
    (ScreenshotProcessingService.prepare_metadata ocr
        (StructureOutputLLM.extract_structured_data i p) = .ok m →
      m.has_error = PyVal.bool false) ∧
    (ScreenshotProcessingService.prepare_metadata ocr
        (StructureOutputLLM.extract_structured_data i p) = .ok m →
      ∃ s2, ScreenshotProcessingService.update_screenshot_record s m md vid
          (StructureOutputLLM.extract_structured_data i p) = .ok s2 ∧
        s2.process_status = "processed") := by
  obtain ⟨t, ql, hs⟩ := extract_structured_data_shape i p
  refine ⟨⟨t, ql, hs⟩, fun h => prepare_metadata_extract_has_error ocr i p m h, fun h => ?_⟩
  have hhe := prepare_metadata_extract_has_error ocr i p m h
  rw [hs, update_screenshot_record_titled]
  exact ⟨_, rfl, by simp [hhe, pyTruthy]⟩

/-- Witness for C10 at concrete inputs: a successful structured parse,
an empty OCR dictionary, and the resulting terminal write. -/
theorem terminal_write_error_branch_unreachable_witness :
    ∃ s2, ScreenshotProcessingService.update_screenshot_record
        { id := "s1", user_id := "u1", process_status := "pending" }
        { title := .str "T", description := .str "", tags := [],
          has_error := .bool false }
        "md" "v1"
        (StructureOutputLLM.extract_structured_data true
          (.ok (some ⟨"T", ⟨"direct", "http://u"⟩⟩))) = .ok s2 ∧
      s2.process_status = "processed" :=
  (terminal_write_error_branch_unreachable true
      (.ok (some ⟨"T", ⟨"direct", "http://u"⟩⟩))
      (PyVal.dict [])
      { title := .str "T", description := .str "", tags := [],
        has_error := .bool false }
      { id := "s1", user_id := "u1", process_status := "pending" }
      "md" "v1").2.2 rfl

/-- C6: the Embedding Provider returns the zero vector of the configured
dimension for empty or whitespace-only input, and likewise returns the
zero-vector sentinel (instead of propagating) whenever the upstream
provider call fails. -/
theorem embedding_zero_vector_on_blank_or_failure (dim : Nat) (text : String)
    (call : Except Unit (List Rat)) :
    (EmbeddingService.isBlank text = true →
      EmbeddingService.generate_embedding dim text call = List.replicate dim 0) ∧
    (call = .error () →
      EmbeddingService.generate_embedding dim text call = List.replicate dim 0) := by
  constructor
  · intro h
    simp [EmbeddingService.generate_embedding, h]
  · intro h
    subst h
    unfold EmbeddingService.generate_embedding
    split <;> rfl

/-- Witness for C6: whitespace-only text with a live provider, and
non-blank text with a failing provider. -/
theorem embedding_zero_vector_on_blank_or_failure_witness :
    EmbeddingService.generate_embedding 3 "  " (.ok [1, 2, 3]) = List.replicate 3 0 ∧
    EmbeddingService.generate_embedding 3 "x" (.error ()) = List.replicate 3 0 :=
  ⟨(embedding_zero_vector_on_blank_or_failure 3 "  " (.ok [1, 2, 3])).1 (by decide),
   (embedding_zero_vector_on_blank_or_failure 3 "x" (.error ())).2 rfl⟩

/-- C1 counterexample: when the extraction output maps
`general_description` to an explicit JSON `null`, every later stage
succeeds and the terminal write commits a `processed` record whose
`ai_description` column is SQL NULL — `_prepare_metadata` reads the
present-but-null key (the `''` default is not used) and
`_update_screenshot_record` assigns that `None` to the nullable column.
The original claim (`processed` implies a non-null description) is false
on this run. -/
theorem processed_record_null_description_counterexample :
    (ScreenshotProcessingService.process_screenshot_async
      { screenshotId := "s1", userId := "u1", ocrInit := true,
        ocrCall := .ok (some (.ok (PyVal.dict [("general_description", PyVal.none)]))),
        tencentChain := .ok "md", structInit := true,
        structParsed := .ok (some ⟨"T", ⟨"direct", "http://u"⟩⟩),
        embedDim := 2, embedCall := .ok [1, 1],
        newVectorId := "v1", insertOk := true }
      { connected := true, entries := [] }).1.process_status = "processed" ∧
    (ScreenshotProcessingService.process_screenshot_async
      { screenshotId := "s1", userId := "u1", ocrInit := true,
        ocrCall := .ok (some (.ok (PyVal.dict [("general_description", PyVal.none)]))),
        tencentChain := .ok "md", structInit := true,
        structParsed := .ok (some ⟨"T", ⟨"direct", "http://u"⟩⟩),
        embedDim := 2, embedCall := .ok [1, 1],
        newVectorId := "v1", insertOk := true }
      { connected := true, entries := [] }).1.ai_description = Option.none :=
  ⟨rfl, rfl⟩

/-- C1 (amended): for every run of the enrichment pipeline,
`process_status = "processed"` implies the AI-derived title, narrative
(`markdown_content`) and `quick_link` are non-null, and
`process_status = "error"` implies all four derived fields (title,
description, narrative, quick_link) are null.  The description column is
exempt from the processed direction: it can be SQL NULL on a processed
record when the extraction output carries an explicit null
`general_description` (see the counterexample). -/
theorem enrichment_status_field_invariant_amended (inp : PipelineInputs)
    (vst : VectorState) :
    ((ScreenshotProcessingService.process_screenshot_async inp vst).1.process_status = "processed" →
      (ScreenshotProcessingService.process_screenshot_async inp vst).1.ai_title.isSome = true ∧
      (ScreenshotProcessingService.process_screenshot_async inp vst).1.markdown_content.isSome = true ∧
      (ScreenshotProcessingService.process_screenshot_async inp vst).1.quick_link.isSome = true) ∧
    ((ScreenshotProcessingService.process_screenshot_async inp vst).1.process_status = "error" →
      (ScreenshotProcessingService.process_screenshot_async inp vst).1.ai_title = Option.none ∧
      (ScreenshotProcessingService.process_screenshot_async inp vst).1.ai_description = Option.none ∧
      (ScreenshotProcessingService.process_screenshot_async inp vst).1.markdown_content = Option.none ∧
      (ScreenshotProcessingService.process_screenshot_async inp vst).1.quick_link = Option.none) := by
  obtain ⟨ts, qt, qc, hs⟩ :=
    extract_structured_data_shape_str inp.structInit inp.structParsed
  simp only [ScreenshotProcessingService.process_screenshot_async, hs,
    update_screenshot_record_titled]
  repeat' split
  all_goals try (simp [ScreenshotProcessingService.mark_screenshot_error,
      ScreenshotProcessingService.create_screenshot_record])
  all_goals rename_i m heqPrep call emb heqEmb x0 vid vst2 heqAdd hcond
  all_goals first
    | (have hhe := prepare_metadata_titled_has_error _ _ _ m heqPrep
       rw [hhe] at hcond
       simp [pyTruthy] at hcond
       done)
    | (have ht := prepare_metadata_titled_title _ _ _ m heqPrep
       rw [ht]
       simp [pyColumn])

/-- Witness for the amended C1: a run in which every stage succeeds ends
`processed` with a non-null title, and a run whose source-discovery stage
raises ends `error` with a null title. -/
theorem enrichment_status_field_invariant_amended_witness :
    (ScreenshotProcessingService.process_screenshot_async
      { screenshotId := "s1", userId := "u1", ocrInit := true,
        ocrCall := .ok (some (.ok (PyVal.dict []))),
        tencentChain := .ok "md", structInit := true,
        structParsed := .ok (some ⟨"T", ⟨"direct", "http://u"⟩⟩),
        embedDim := 2, embedCall := .ok [1, 1],
        newVectorId := "v1", insertOk := true }
      { connected := true, entries := [] }).1.ai_title.isSome = true ∧
    (ScreenshotProcessingService.process_screenshot_async
      { screenshotId := "s1", userId := "u1", ocrInit := true,
        ocrCall := .ok (some (.ok (PyVal.num 3))),
        tencentChain := .error (), structInit := true,
        structParsed := .ok (some ⟨"T", ⟨"direct", "http://u"⟩⟩),
        embedDim := 2, embedCall := .ok [1, 1],
        newVectorId := "v1", insertOk := true }
      { connected := true, entries := [] }).1.ai_title = Option.none :=
  ⟨((enrichment_status_field_invariant_amended
      { screenshotId := "s1", userId := "u1", ocrInit := true,
        ocrCall := .ok (some (.ok (PyVal.dict []))),
        tencentChain := .ok "md", structInit := true,
        structParsed := .ok (some ⟨"T", ⟨"direct", "http://u"⟩⟩),
        embedDim := 2, embedCall := .ok [1, 1],
        newVectorId := "v1", insertOk := true }
      { connected := true, entries := [] }).1 rfl).1,
   ((enrichment_status_field_invariant_amended
      { screenshotId := "s1", userId := "u1", ocrInit := true,
        ocrCall := .ok (some (.ok (PyVal.num 3))),
        tencentChain := .error (), structInit := true,
        structParsed := .ok (some ⟨"T", ⟨"direct", "http://u"⟩⟩),
        embedDim := 2, embedCall := .ok [1, 1],
        newVectorId := "v1", insertOk := true }
      { connected := true, entries := [] }).2 rfl).1⟩

/-- C2 counterexample: with a malformed (non-parseable) structured result
from the extraction provider and every later stage succeeding, the run
does NOT end in `error` with null fields and no index entry — it ends
`processed`, with a non-null title and one vector entry created.  The
malformed output was absorbed into the extractor's default dictionary
rather than propagated. -/
theorem extractor_malformed_hard_failure_counterexample :
    (ScreenshotProcessingService.process_screenshot_async
      { screenshotId := "s1", userId := "u1", ocrInit := true,
        ocrCall := .ok (some (.error ())),
        tencentChain := .ok "md", structInit := true,
        structParsed := .ok (some ⟨"T", ⟨"direct", "http://u"⟩⟩),
        embedDim := 2, embedCall := .ok [1, 1],
        newVectorId := "v1", insertOk := true }
      { connected := true, entries := [] }).1.process_status = "processed" ∧
    (ScreenshotProcessingService.process_screenshot_async
      { screenshotId := "s1", userId := "u1", ocrInit := true,
        ocrCall := .ok (some (.error ())),
        tencentChain := .ok "md", structInit := true,
        structParsed := .ok (some ⟨"T", ⟨"direct", "http://u"⟩⟩),
        embedDim := 2, embedCall := .ok [1, 1],
        newVectorId := "v1", insertOk := true }
      { connected := true, entries := [] }).1.ai_title = some (.str "T") ∧
    (ScreenshotProcessingService.process_screenshot_async
      { screenshotId := "s1", userId := "u1", ocrInit := true,
        ocrCall := .ok (some (.error ())),
        tencentChain := .ok "md", structInit := true,
        structParsed := .ok (some ⟨"T", ⟨"direct", "http://u"⟩⟩),
        embedDim := 2, embedCall := .ok [1, 1],
        newVectorId := "v1", insertOk := true }
      { connected := true, entries := [] }).2.entries.length = 1 :=
  ⟨rfl, rfl, rfl⟩

/-- C2 (amended): a malformed-output condition in the Content Extractor
is absorbed into the stage's default error-response dictionary, not
propagated: the stage returns normally, and a pipeline run with such an
extraction outcome whose remaining stages succeed ends with
`process_status = "processed"` and one new Vector Index entry (when the
index is connected and the insert succeeds). -/
theorem extractor_malformed_output_absorbed
    (i : Bool) (inp : PipelineInputs) (vst : VectorState) (md : String)
    (hocr : inp.ocrCall = .ok (some (.error ())))
    (htc : inp.tencentChain = .ok md)
    (hconn : vst.connected = true) (hins : inp.insertOk = true) :
    GeminiOCRLLM.process_screenshot i (.ok (some (.error ()))) =
      GeminiOCRLLM.error_response ∧
    (ScreenshotProcessingService.process_screenshot_async inp vst).1.process_status
      = "processed" ∧
    (ScreenshotProcessingService.process_screenshot_async inp vst).2.entries.length
      = vst.entries.length + 1 := by
  obtain ⟨t, ql, hs⟩ := extract_structured_data_shape inp.structInit inp.structParsed
  refine ⟨gemini_malformed_gives_error_response i, ?_⟩
  simp only [ScreenshotProcessingService.process_screenshot_async, hocr,
    gemini_malformed_gives_error_response,
    htc, hs, ScreenshotProcessingService.find_sources_with_tencent,
    prepare_metadata_gemini_error_titled,
    EmbeddingService.generate_embedding_from_screenshot_data, pyJoinStrs,
    VectorService.add_screenshot, VectorService.add_entity, hconn, hins,
    update_screenshot_record_titled]
  simp [pyTruthy]

/-- Witness for the amended C2 at the counterexample's concrete input. -/
theorem extractor_malformed_output_absorbed_witness :
    (ScreenshotProcessingService.process_screenshot_async
      { screenshotId := "s2", userId := "u2", ocrInit := false,
        ocrCall := .ok (some (.error ())),
        tencentChain := .ok "# fallback", structInit := false,
        structParsed := .error (),
        embedDim := 2, embedCall := .error (),
        newVectorId := "v2", insertOk := true }
      { connected := true, entries := [] }).1.process_status = "processed" :=
  (extractor_malformed_output_absorbed false
      { screenshotId := "s2", userId := "u2", ocrInit := false,
        ocrCall := .ok (some (.error ())),
        tencentChain := .ok "# fallback", structInit := false,
        structParsed := .error (),
        embedDim := 2, embedCall := .error (),
        newVectorId := "v2", insertOk := true }
      { connected := true, entries := [] } "# fallback" rfl rfl rfl rfl).2.1

/-- C5: in the disconnected state every Vector Index operation is an
explicit empty/no-op result — search returns `[]`, upsert returns the
`"not-stored"` sentinel, remove leaves the state unchanged — and an
enrichment run whose content stages succeed still completes with
`process_status = "processed"` and the sentinel vector reference. -/
theorem disconnected_index_degraded_mode (vst : VectorState)
    (h : vst.connected = false) :
    (∀ q uids lim, VectorService.search_screenshots vst q uids lim = []) ∧
    (∀ eid ety emb uid nid iok,
      VectorService.add_entity vst eid ety emb uid nid iok = .ok ("not-stored", vst)) ∧
    (∀ vid, VectorService.delete_screenshot vst vid = vst) ∧
    (∀ inp md m emb,
      inp.tencentChain = .ok md →
      ScreenshotProcessingService.prepare_metadata
        (GeminiOCRLLM.process_screenshot inp.ocrInit inp.ocrCall)
        (StructureOutputLLM.extract_structured_data inp.structInit inp.structParsed)
        = .ok m →
      EmbeddingService.generate_embedding_from_screenshot_data inp.embedDim
        m.title m.description m.tags md inp.embedCall = .ok emb →
      (ScreenshotProcessingService.process_screenshot_async inp vst).1.process_status
        = "processed" ∧
      (ScreenshotProcessingService.process_screenshot_async inp vst).1.vector_id
        = some "not-stored" ∧
      (ScreenshotProcessingService.process_screenshot_async inp vst).2 = vst) := by
  refine ⟨?_, ?_, ?_, ?_⟩
  · intro q uids lim
    simp [VectorService.search_screenshots, h]
  · intro eid ety emb uid nid iok
    simp [VectorService.add_entity, h]
  · intro vid
    simp [VectorService.delete_screenshot, h]
  · intro inp md m emb htc hprep hemb
    obtain ⟨t, ql, hs⟩ := extract_structured_data_shape inp.structInit inp.structParsed
    rw [hs] at hprep
    have hhe := prepare_metadata_titled_has_error _ t ql m hprep
    simp only [ScreenshotProcessingService.process_screenshot_async, htc, hs,
      ScreenshotProcessingService.find_sources_with_tencent, hprep, hemb,
      VectorService.add_screenshot, VectorService.add_entity, h,
      update_screenshot_record_titled, hhe]
    simp [pyTruthy]

/-- Witness for C5: a concrete disconnected state with a fully successful
content run. -/
theorem disconnected_index_degraded_mode_witness :
    VectorService.search_screenshots { connected := false, entries := [] } [1, 1]
      ["u1"] 10 = [] ∧
    (ScreenshotProcessingService.process_screenshot_async
      { screenshotId := "s1", userId := "u1", ocrInit := true,
        ocrCall := .ok (some (.ok (PyVal.dict []))),
        tencentChain := .ok "md", structInit := true,
        structParsed := .ok (some ⟨"T", ⟨"direct", "http://u"⟩⟩),
        embedDim := 2, embedCall := .ok [1, 1],
        newVectorId := "v1", insertOk := true }
      { connected := false, entries := [] }).1.vector_id = some "not-stored" :=
  ⟨(disconnected_index_degraded_mode { connected := false, entries := [] } rfl).1
      [1, 1] ["u1"] 10,
   ((disconnected_index_degraded_mode { connected := false, entries := [] } rfl).2.2.2
      { screenshotId := "s1", userId := "u1", ocrInit := true,
        ocrCall := .ok (some (.ok (PyVal.dict []))),
        tencentChain := .ok "md", structInit := true,
        structParsed := .ok (some ⟨"T", ⟨"direct", "http://u"⟩⟩),
        embedDim := 2, embedCall := .ok [1, 1],
        newVectorId := "v1", insertOk := true }
      "md"
      { title := .str "T", description := .str "", tags := [],
        has_error := .bool false }
      [1, 1] rfl rfl rfl).2.1⟩

/-- C4: every hit returned by a Vector Index search has its owner in the
requested owner set and originates from a stored entry of entity type
`"screenshot"` with matching entity id and owner — entries of other
owners or of entity type `"query"` never appear. -/
theorem search_hits_owner_and_screenshot_only (st : VectorState)
    (q : List Rat) (uids : List String) (lim : Nat) (hit : SearchHit)
    (h : hit ∈ VectorService.search_screenshots st q uids lim) :
    hit.user_id ∈ uids ∧
    ∃ e ∈ st.entries, e.entity_type = "screenshot" ∧
      e.entity_id = hit.screenshot_id ∧ e.user_id = hit.user_id := by
  unfold VectorService.search_screenshots at h
  split at h
  · exact absurd h (List.not_mem_nil _)
  · split at h
    · exact absurd h (List.not_mem_nil _)
    · have h1 := List.mem_of_mem_take h
      rw [mem_sortByKeyDesc] at h1
      obtain ⟨e, he, rfl⟩ := List.mem_map.mp h1
      obtain ⟨hmem, hpred⟩ := List.mem_filter.mp he
      simp only [Bool.and_eq_true, beq_iff_eq] at hpred
      refine ⟨?_, e, hmem, hpred.2, rfl, rfl⟩
      simpa using hpred.1

/-- Witness for C4: a three-entry store (own screenshot, own query
embedding, another owner's screenshot); searching as `"u1"` returns the
single own-screenshot hit, for which the theorem's conclusions hold. -/
theorem search_hits_owner_and_screenshot_only_witness :
    ({ screenshot_id := "s1", user_id := "u1",
       score := innerProduct [1] [2] } : SearchHit) ∈
      VectorService.search_screenshots
        { connected := true,
          entries :=
            [{ vector_id := "v1", entity_id := "s1", entity_type := "screenshot",
               user_id := "u1", embedding := [2] },
             { vector_id := "v2", entity_id := "q1", entity_type := "query",
               user_id := "u1", embedding := [9] },
             { vector_id := "v3", entity_id := "s2", entity_type := "screenshot",
               user_id := "u2", embedding := [7] }] }
        [1] ["u1"] 5 ∧
    ({ screenshot_id := "s1", user_id := "u1",
       score := innerProduct [1] [2] } : SearchHit).user_id ∈ ["u1"] :=
  ⟨List.mem_singleton.mpr rfl,
   (search_hits_owner_and_screenshot_only
      { connected := true,
        entries :=
          [{ vector_id := "v1", entity_id := "s1", entity_type := "screenshot",
             user_id := "u1", embedding := [2] },
           { vector_id := "v2", entity_id := "q1", entity_type := "query",
             user_id := "u1", embedding := [9] },
           { vector_id := "v3", entity_id := "s2", entity_type := "screenshot",
             user_id := "u2", embedding := [7] }] }
      [1] ["u1"] 5
      { screenshot_id := "s1", user_id := "u1", score := innerProduct [1] [2] }
      (List.mem_singleton.mpr rfl)).1⟩

/-- C3 counterexample: a retrieval request whose vector search returns an
empty candidate set (here: disconnected index) creates NO Query Record at
all — not the one-per-request the claim asserts. -/
theorem query_record_always_created_counterexample :
    (api_search_screenshots "q" 5 "u1" [] { connected := false, entries := [] }
      3 (.ok [1, 2, 3]) true (.error ())).queryRecord = Option.none := rfl

/-- C3 (amended): a Query Record is created exactly when the vector
search returns a non-empty candidate set; in that case exactly one record
is created, carrying the requesting owner, the query text, the candidate
count and `include_friends = 0` — and none is created when the candidate
set is empty. -/
theorem query_record_iff_nonempty_candidates (qt : String) (lim : Nat)
    (uid : String) (db : List Screenshot) (vst : VectorState)
    (dim : Nat) (ecall : Except Unit (List Rat)) (rinit : Bool)
    (rcall : Except Unit (Option (List (Option (Int × Rat))))) :
    (api_search_screenshots qt lim uid db vst dim ecall rinit rcall).queryRecord =
      (if (api_search_screenshots qt lim uid db vst dim ecall rinit rcall).searchResults.isEmpty
       then Option.none
       else some { user_id := uid, query_text := qt,
                   results_count := (api_search_screenshots qt lim uid db vst dim
                     ecall rinit rcall).searchResults.length,
                   include_friends := 0 }) := by
  simp only [api_search_screenshots]
  repeat' split
  all_goals simp_all

/-- C8: the vector search of a retrieval request is issued with an
over-fetch limit of `2 * limit`, the final result list never exceeds the
requested limit, and an empty vector-search candidate set short-circuits
to an empty result list without invoking the reranker. -/
theorem retrieval_overfetch_truncate_shortcircuit (qt : String) (lim : Nat)
    (uid : String) (db : List Screenshot) (vst : VectorState)
    (dim : Nat) (ecall : Except Unit (List Rat)) (rinit : Bool)
    (rcall : Except Unit (Option (List (Option (Int × Rat))))) :
    (api_search_screenshots qt lim uid db vst dim ecall rinit rcall).vectorLimit
      = 2 * lim ∧
    (api_search_screenshots qt lim uid db vst dim ecall rinit rcall).results.length
      ≤ lim ∧
    ((api_search_screenshots qt lim uid db vst dim ecall rinit rcall).searchResults = [] →
      (api_search_screenshots qt lim uid db vst dim ecall rinit rcall).results = [] ∧
      (api_search_screenshots qt lim uid db vst dim ecall rinit rcall).rerankerInvoked = false) := by
  simp only [api_search_screenshots]
  repeat' split
  all_goals refine ⟨by simpa using Nat.mul_comm lim 2, ?_, ?_⟩
  all_goals first
    | exact le_trans (List.length_filterMap_le _ _) (rerank_screenshots_length_le _ _ _ _)
    | (intro h; first | exact ⟨rfl, rfl⟩ | simp_all)
    | simp

/-- Witness for C8: the short-circuit branch at a concrete disconnected
index. -/
theorem retrieval_overfetch_truncate_shortcircuit_witness :
    (api_search_screenshots "q" 5 "u1" [] { connected := false, entries := [] }
      3 (.ok [1, 2, 3]) true (.error ())).results = [] ∧
    (api_search_screenshots "q" 5 "u1" [] { connected := false, entries := [] }
      3 (.ok [1, 2, 3]) true (.error ())).rerankerInvoked = false :=
  (retrieval_overfetch_truncate_shortcircuit "q" 5 "u1" []
    { connected := false, entries := [] } 3 (.ok [1, 2, 3]) true (.error ())).2.2 rfl

/-- C7: whenever at least `top_k` candidates are supplied, the Reranker
returns exactly `top_k` (candidate, score) pairs for every provider
response — missing indices are backfilled from the original order — and
on a provider failure it falls back to the first `top_k` candidates in
the original vector-search order with the uniform neutral score `1.0`;
being a total function, it never raises. -/
theorem rerank_returns_topk_and_failure_fallback (init : Bool) (ss : List α)
    (k : Nat) (call : Except Unit (Option (List (Option (Int × Rat)))))
    (h : k ≤ ss.length) :
    (RerankingService.rerank_screenshots init ss k call).length = k ∧
    RerankingService.rerank_screenshots init ss k (.error ()) =
      (ss.take k).map (fun s => (s, (1 : Rat))) ∧
    (∀ a b c d : α,
      RerankingService.rerank_screenshots true [a, b, c, d] 4
        (.ok (some [some (0, 9), some (1, 7), some (3, 5)])) =
        [(a, 9), (b, 7), (d, 5), (c, (1 : Rat) / 2)]) := by
  refine ⟨?_, ?_, fun a b c d => rfl⟩
  · simp only [RerankingService.rerank_screenshots]
    repeat' split
    all_goals try (simp only [List.length_take, List.length_map]; omega)
    rename_i hinit call lines x reranked heq
    have hL1 := buildReranked_ok_length ss _ reranked heq
    have hlow := backfillAux_length_lower
      ((List.take k (RerankingService.parse_rankings lines)).map (fun p => p.1)) k ss 0 reranked
    rw [← List.range_eq_range'] at hlow
    have hcount := length_range_filter_contains_le
      ((List.take k (RerankingService.parse_rankings lines)).map (fun p => p.1)) ss.length
    have hsplit : ((List.range ss.length).filter
        (fun (j : Nat) => !((List.take k (RerankingService.parse_rankings lines)).map
          (fun p => p.1)).contains (j : Int))).length +
      ((List.range ss.length).filter
        (fun (j : Nat) => ((List.take k (RerankingService.parse_rankings lines)).map
          (fun p => p.1)).contains (j : Int))).length = ss.length := by
      simpa using length_filter_not_add_length_filter (List.range ss.length)
        (fun (j : Nat) => ((List.take k (RerankingService.parse_rankings lines)).map
          (fun p => p.1)).contains (j : Int))
    have hC : (((List.take k (RerankingService.parse_rankings lines)).map
        (fun p => p.1)).filter (fun x => decide (x < (ss.length : Int)))).length =
        ((List.take k (RerankingService.parse_rankings lines)).filter
          (fun p => decide (p.1 < (ss.length : Int)))).length := by
      rw [List.filter_map]
      simp only [List.length_map]
      rfl
    rw [List.length_take]
    omega
  · cases init <;> rfl

/-- Witness for C7: three candidates, `top_k = 2`, a response mentioning
only index 0 — still exactly two pairs come back, and a failing provider
yields the first two candidates at score `1.0`. -/
theorem rerank_returns_topk_and_failure_fallback_witness :
    (RerankingService.rerank_screenshots true ([10, 20, 30] : List Nat) 2
      (.ok (some [some (0, 1), Option.none]))).length = 2 ∧
    RerankingService.rerank_screenshots true ([10, 20, 30] : List Nat) 2 (.error ()) =
      (([10, 20, 30] : List Nat).take 2).map (fun s => (s, (1 : Rat))) :=
  ⟨(rerank_returns_topk_and_failure_fallback true [10, 20, 30] 2
      (.ok (some [some (0, 1), Option.none])) (by decide)).1,
   (rerank_returns_topk_and_failure_fallback true [10, 20, 30] 2
      (.ok (some [some (0, 1), Option.none])) (by decide)).2.1⟩

end Instago
